import Mathlib

/-!
Verification of the memescan core (Chain Event Monitor and Forked-Chain
Simulation Sandbox) against its natural-language specification.

The Python sources `src/services/simulator.py`, `src/services/monitor.py` and
`src/domain/models.py` are shallowly embedded below: every awaited external
step (a `cast` subprocess invocation, an RPC call, the caller-supplied
handler) is represented by its outcome, supplied as input, and the pure
control flow of the Python functions is translated line by line.

Conventions:
* Python `float` percentages are modelled by `Rat`; the properties proved
  (sign, ordering against the clamping bounds 0 and 100) are preserved by
  this change of carrier.
* Python exceptions are explicit: a `Step α` is either a normal value or an
  exception message (`str(exc)`), and the simulator's `except Exception`
  handler is the `.fall`-with-`error_message` branch of the embedding.
-/

namespace Memescan

/-- Outcome of one awaited step inside `simulate_buy_sell`'s `try:` block:
either the value the Python call returned, or the `str(exc)` of the
exception it raised. -/
inductive Step (α : Type) where
  | ok (a : α)
  | exn (msg : String)
deriving Repr, DecidableEq

/-- The dictionary returned by `SimulationService._cast_send`
(`{success: bool, gas_used: int, revert_reason: str | None}`); all three
keys are always present in the dictionaries the source builds. -/
structure CastReceipt where
  success : Bool
  gas_used : Nat
  revert_reason : Option String
deriving Repr, DecidableEq

/-- `domain/models.py` `SimulationResult`, with the same pydantic field
defaults; `buy_tax_pct`/`sell_tax_pct` carried as rationals. -/
structure SimulationResult where
  token_address : String
  can_buy : Bool := false
  can_sell : Bool := false
  buy_tax_pct : Rat := 0
  sell_tax_pct : Rat := 0
  buy_gas : Nat := 0
  sell_gas : Nat := 0
  is_honeypot : Bool := false
  revert_reason : Option String := none
  error_message : Option String := none
deriving Repr, DecidableEq

/-- The local variables of `simulate_buy_sell` initialised before the
`try:` block (lines 190–197 of `services/simulator.py`), at their current
values when control reaches a given point. -/
structure SimVars where
  can_buy : Bool := false
  can_sell : Bool := false
  buy_gas : Nat := 0
  sell_gas : Nat := 0
  buy_tax_pct : Rat := 0
  sell_tax_pct : Rat := 0
deriving Repr, DecidableEq

/-- How the `try:` block of `simulate_buy_sell` ends: an early `return`
with a literal result, or falling through to the final `return` (normally
with `error_message = None`, or via `except Exception` with
`error_message = str(exc)`). -/
inductive BodyOutcome where
  | early (r : SimulationResult)
  | fall (v : SimVars) (error_message : Option String)
deriving Repr, DecidableEq

/-- Environment of one `simulate_buy_sell` run: the outcome of each awaited
call, in program order.  Amount queries (`_get_amounts_out`) yield
`Option Int` (`int | None` in the source); balances yield `Int`
(`_parse_cast_uint` / `int(...)` values). -/
structure SimEnv where
  symbol : Step String
  decimals : Step Int
  amountsOutBuy : Step (Option Int)
  buyReceipt : Step CastReceipt
  tokenBalance : Step Int
  approveReceipt : Step CastReceipt
  amountsOutSell : Step (Option Int)
  ethBefore : Step Int
  sellReceipt : Step CastReceipt
  ethAfter : Step Int
deriving Repr, DecidableEq

/-- Step 8 of `simulate_buy_sell` (lines 355–362): read `eth_after`,
compute `actual_eth_received = eth_after - eth_before`, and when
`expected_eth` is truthy, positive, and the received amount is
non-negative, set `sell_tax_pct = max(0, (expected - actual)/expected * 100)`. -/
def sellTaxStage (v : SimVars) (expected_eth : Option Int) (eth_before : Int)
    (ea : Step Int) : BodyOutcome :=
  match ea with
  | .exn m => .fall v (some m)
  | .ok eth_after =>
    let actual_eth_received : Int := eth_after - eth_before
    match expected_eth with
    | some e =>
      if 0 < e ∧ 0 ≤ actual_eth_received then
        let raw : Rat := ((e : Rat) - (actual_eth_received : Rat)) / (e : Rat) * 100
        .fall { v with sell_tax_pct := max 0 raw } none
      else .fall v none
    | none => .fall v none

/-- Step 7 of `simulate_buy_sell` (lines 328–352): execute the sell; on a
failed receipt return the honeypot literal of lines 340–348 (its
`revert_reason` is the receipt's stored value — the dictionary always has
the key, so `dict.get`'s default is dead), else record `can_sell`/`sell_gas`
and continue. -/
def sellStage (addr : String) (v : SimVars) (expected_eth : Option Int)
    (eth_before : Int) (sr : Step CastReceipt) (ea : Step Int) : BodyOutcome :=
  match sr with
  | .exn m => .fall v (some m)
  | .ok sell_receipt =>
    if sell_receipt.success = false then
      .early { token_address := addr, can_buy := true, can_sell := false,
               is_honeypot := true, buy_gas := v.buy_gas,
               buy_tax_pct := v.buy_tax_pct,
               revert_reason := sell_receipt.revert_reason }
    else
      sellTaxStage { v with can_sell := true, sell_gas := sell_receipt.gas_used }
        expected_eth eth_before ea

/-- Steps 5–6 of `simulate_buy_sell` (lines 316–325): quote the sell side
and read the pre-sell native balance, then run the sell. -/
def postApproveStage (addr : String) (v : SimVars) (aos : Step (Option Int))
    (eb : Step Int) (sr : Step CastReceipt) (ea : Step Int) : BodyOutcome :=
  match aos with
  | .exn m => .fall v (some m)
  | .ok expected_eth =>
    match eb with
    | .exn m => .fall v (some m)
    | .ok eth_before => sellStage addr v expected_eth eth_before sr ea

/-- Step 4 of `simulate_buy_sell` (lines 291–311): approve the router; on a
failed receipt return the honeypot literal of lines 303–311, whose
`revert_reason` is the fixed string of line 310 (the receipt's own reason is
only logged at line 302). -/
def approveStage (addr : String) (v : SimVars) (ar : Step CastReceipt)
    (aos : Step (Option Int)) (eb : Step Int) (sr : Step CastReceipt)
    (ea : Step Int) : BodyOutcome :=
  match ar with
  | .exn m => .fall v (some m)
  | .ok approve_receipt =>
    if approve_receipt.success = false then
      .early { token_address := addr, can_buy := true, can_sell := false,
               is_honeypot := true, buy_gas := v.buy_gas,
               buy_tax_pct := v.buy_tax_pct,
               revert_reason := some "Approve 被拒绝 — 可能是蜜罐" }
    else postApproveStage addr v aos eb sr ea

/-- Step 3 of `simulate_buy_sell` (lines 262–279): read the post-buy token
balance; when `expected_tokens > 0 and actual_tokens >= 0` set the raw buy
tax `max(0, (expected - actual)/expected * 100)`; when the balance is zero
return the 100%-tax honeypot literal of lines 271–279. -/
def balanceStage (addr : String) (v : SimVars) (expected_tokens : Int)
    (tb : Step Int) (ar : Step CastReceipt) (aos : Step (Option Int))
    (eb : Step Int) (sr : Step CastReceipt) (ea : Step Int) : BodyOutcome :=
  match tb with
  | .exn m => .fall v (some m)
  | .ok actual_tokens =>
    let raw : Rat :=
      ((expected_tokens : Rat) - (actual_tokens : Rat)) / (expected_tokens : Rat) * 100
    let v' := if 0 < expected_tokens ∧ 0 ≤ actual_tokens then
        { v with buy_tax_pct := max 0 raw }
      else v
    if actual_tokens = 0 then
      .early { token_address := addr, can_buy := true, can_sell := false,
               is_honeypot := true, buy_gas := v'.buy_gas, buy_tax_pct := 100,
               revert_reason := some "买入成功但余额为 0 — 100% 税率" }
    else approveStage addr v' ar aos eb sr ea

/-- Step 2 of `simulate_buy_sell` (lines 234–255): the buy transaction; on a
failed receipt return the not-buyable literal of lines 247–251 (its
`revert_reason` is the receipt's stored value), else record
`can_buy`/`buy_gas`. -/
def buyStage (addr : String) (v : SimVars) (expected_tokens : Int)
    (br : Step CastReceipt) (tb : Step Int) (ar : Step CastReceipt)
    (aos : Step (Option Int)) (eb : Step Int) (sr : Step CastReceipt)
    (ea : Step Int) : BodyOutcome :=
  match br with
  | .exn m => .fall v (some m)
  | .ok buy_receipt =>
    if buy_receipt.success = false then
      .early { token_address := addr, can_buy := false,
               revert_reason := buy_receipt.revert_reason }
    else
      balanceStage addr { v with can_buy := true, buy_gas := buy_receipt.gas_used }
        expected_tokens tb ar aos eb sr ea

/-- Step 1 of `simulate_buy_sell` (lines 215–226): pre-buy router quote; a
`None` or zero `expected_tokens` returns the liquidity-error literal of
lines 222–225 before any transaction. -/
def quoteStage (addr : String) (v : SimVars) (aob : Step (Option Int))
    (br : Step CastReceipt) (tb : Step Int) (ar : Step CastReceipt)
    (aos : Step (Option Int)) (eb : Step Int) (sr : Step CastReceipt)
    (ea : Step Int) : BodyOutcome :=
  match aob with
  | .exn m => .fall v (some m)
  | .ok none =>
    .early { token_address := addr,
             error_message := some "getAmountsOut 失败 — 可能没有流动性" }
  | .ok (some expected_tokens) =>
    if expected_tokens = 0 then
      .early { token_address := addr,
               error_message := some "getAmountsOut 失败 — 可能没有流动性" }
    else buyStage addr v expected_tokens br tb ar aos eb sr ea

/-- The whole `try: ... except Exception:` body of `simulate_buy_sell`
(lines 199–366), starting with the metadata reads of step 0. -/
def simBody (addr : String) (env : SimEnv) : BodyOutcome :=
  match env.symbol with
  | .exn m => .fall {} (some m)
  | .ok _ =>
    match env.decimals with
    | .exn m => .fall {} (some m)
    | .ok _ =>
      quoteStage addr {} env.amountsOutBuy env.buyReceipt env.tokenBalance
        env.approveReceipt env.amountsOutSell env.ethBefore env.sellReceipt
        env.ethAfter

/-- The final `return SimulationResult(...)` of `simulate_buy_sell`
(lines 368–381): `is_honeypot = can_buy and not can_sell`, and both tax
fields clamped from above by `min(_, 100.0)`. -/
def finalReturn (addr : String) (v : SimVars) (em : Option String) :
    SimulationResult :=
  { token_address := addr, can_buy := v.can_buy, can_sell := v.can_sell,
    buy_tax_pct := min v.buy_tax_pct 100, sell_tax_pct := min v.sell_tax_pct 100,
    buy_gas := v.buy_gas, sell_gas := v.sell_gas,
    is_honeypot := v.can_buy && !v.can_sell,
    revert_reason := none, error_message := em }

/-- `SimulationService.simulate_buy_sell` (lines 172–381), as a function of
the run's environment.  Early returns yield their literal; every other path
reaches the final `return` with the current local variables. -/
def simulate_buy_sell (addr : String) (env : SimEnv) : SimulationResult :=
  match simBody addr env with
  | .early r => r
  | .fall v em => finalReturn addr v em

/-- The three `_cast_send` invocations `simulate_buy_sell` can reach. -/
inductive TxKind where
  | buy
  | approve
  | sell
deriving Repr, DecidableEq

/-- Which `_cast_send` invocations the control flow of `simulate_buy_sell`
reaches in a given environment, in order: a second walk of the body of
`simBody`, recording a transaction each time a `cast send` subprocess is
spawned (whatever its outcome). -/
def sim_sends (env : SimEnv) : List TxKind :=
  match env.symbol with
  | .exn _ => []
  | .ok _ =>
    match env.decimals with
    | .exn _ => []
    | .ok _ =>
      match env.amountsOutBuy with
      | .exn _ => []
      | .ok none => []
      | .ok (some expected_tokens) =>
        if expected_tokens = 0 then []
        else .buy ::
          (match env.buyReceipt with
          | .exn _ => []
          | .ok br =>
            if br.success = false then []
            else
              match env.tokenBalance with
              | .exn _ => []
              | .ok actual_tokens =>
                if actual_tokens = 0 then []
                else .approve ::
                  (match env.approveReceipt with
                  | .exn _ => []
                  | .ok ar =>
                    if ar.success = false then []
                    else
                      match env.amountsOutSell with
                      | .exn _ => []
                      | .ok _ =>
                        match env.ethBefore with
                        | .exn _ => []
                        | .ok _ => [.sell]))

/-! ### Python string primitives

Structurally recursive (kernel-computable) models of the Python string
operations the source uses, over `String.data` character lists. -/

/-- Python `str.strip()` (ASCII whitespace, which is all the source's
values carry). -/
def pyStrim (s : String) : String :=
  String.mk (((s.data.dropWhile Char.isWhitespace).reverse.dropWhile
    Char.isWhitespace).reverse)

/-- Python `str.lower()`. -/
def pyLower (s : String) : String :=
  String.mk (s.data.map Char.toLower)

/-- Python `s[:n]`. -/
def pyTake (s : String) (n : Nat) : String :=
  String.mk (s.data.take n)

/-- Python `s[n:]`. -/
def pyDrop (s : String) (n : Nat) : String :=
  String.mk (s.data.drop n)

/-- Python `s[-n:]` (the whole string when it is shorter than `n`). -/
def pyTakeRight (s : String) (n : Nat) : String :=
  String.mk (s.data.drop (s.data.length - n))

/-- Substring occurrence (`needle in hay` for a non-empty needle). -/
def containsSub (needle : List Char) : List Char → Bool
  | [] => needle.isEmpty
  | c :: rest => needle.isPrefixOf (c :: rest) || containsSub needle rest

/-- Split at every `'\n'`, keeping empty pieces (Python `splitlines` for
`'\n'`-separated text; the difference — no trailing empty piece — cannot
matter to a caller that only searches pieces for non-empty markers). -/
def splitLinesAux (cur : List Char) : List Char → List String
  | [] => [String.mk cur.reverse]
  | c :: rest =>
    if c = '\n' then String.mk cur.reverse :: splitLinesAux [] rest
    else splitLinesAux (c :: cur) rest

/-- The lines of `s`. -/
def splitLines (s : String) : List String :=
  splitLinesAux [] s.data

/-- Python `str.split()` helper: words between whitespace runs. -/
def wordsAux (cur : List Char) : List Char → List String
  | [] => if cur.isEmpty then [] else [String.mk cur.reverse]
  | c :: rest =>
    if c.isWhitespace then
      if cur.isEmpty then wordsAux [] rest
      else String.mk cur.reverse :: wordsAux [] rest
    else wordsAux (c :: cur) rest

/-- Python `s.split()`: split on whitespace, dropping empty pieces. -/
def pySplitWhitespace (s : String) : List String :=
  wordsAux [] s.data

/-! ### TransactionRunner: `_cast_send`, `_cast_call_raw` and output parsing -/

/-- One hexadecimal digit's value, as accepted by Python `int(_, 16)`. -/
def hexVal? (c : Char) : Option Nat :=
  if '0' ≤ c ∧ c ≤ '9' then some (c.toNat - 48)
  else if 'a' ≤ c ∧ c ≤ 'f' then some (c.toNat - 87)
  else if 'A' ≤ c ∧ c ≤ 'F' then some (c.toNat - 55)
  else none

/-- A non-empty all-hex digit string's value. -/
def hexNat? (cs : List Char) : Option Nat :=
  match cs with
  | [] => none
  | _ => cs.foldl (fun acc c => acc.bind fun n => (hexVal? c).map fun d => 16 * n + d)
      (some 0)

/-- Python `int(s, 16)` on the receipt values the source feeds it: optional
`0x`/`0X` marker then hex digits; `none` models the `ValueError` raised on
anything else (such as Anvil's well-formed values never are). -/
def pyIntBase16 (s : String) : Option Nat :=
  match (pyStrim s).data with
  | '0' :: 'x' :: rest => hexNat? rest
  | '0' :: 'X' :: rest => hexNat? rest
  | cs => hexNat? cs

/-- One decimal digit's value. -/
def decVal? (c : Char) : Option Nat :=
  if '0' ≤ c ∧ c ≤ '9' then some (c.toNat - 48) else none

/-- A non-empty all-decimal digit string's value. -/
def decNat? (cs : List Char) : Option Nat :=
  match cs with
  | [] => none
  | _ => cs.foldl (fun acc c => acc.bind fun n => (decVal? c).map fun d => 10 * n + d)
      (some 0)

/-- Python `int(s)`: surrounding whitespace stripped, optional sign, decimal
digits; `none` models `ValueError`. -/
def pyIntDec (s : String) : Option Int :=
  match (pyStrim s).data with
  | '-' :: rest => (decNat? rest).map fun n => -(n : Int)
  | '+' :: rest => (decNat? rest).map fun n => (n : Int)
  | cs => (decNat? cs).map fun n => (n : Int)

/-- Remove leading characters belonging to `chars`. -/
def lstripSet (chars : List Char) : List Char → List Char
  | [] => []
  | c :: rest => if chars.contains c then lstripSet chars rest else c :: rest

/-- Python `s.strip("[], ")`-style stripping of a character family from both
ends. -/
def pyStripSet (chars : List Char) (s : String) : String :=
  String.mk ((lstripSet chars ((lstripSet chars s.data).reverse)).reverse)

/-- `SimulationService._parse_cast_uint` (lines 642–662): strip, take the
part before the first whitespace when a space is present, strip residual
bracket/comma noise, and convert with `int(...)`; parse failure yields 0. -/
def parse_cast_uint (raw : String) : Int :=
  let cleaned := pyStrim raw
  let cleaned := if cleaned.data.contains ' ' then (pySplitWhitespace cleaned).headD ""
    else cleaned
  let cleaned := pyStripSet ['[', ']', ',', ' '] cleaned
  (pyIntDec cleaned).getD 0

/-- `SimulationService._extract_revert_reason` (lines 664–671): the first
stderr line whose lowercase form contains `"revert"` or `"error"`, stripped;
`none` when no line matches. -/
def extract_revert_reason (stderr : String) : Option String :=
  (((splitLines stderr).find? fun line =>
    containsSub "revert".data (pyLower line).data ||
      containsSub "error".data (pyLower line).data).map pyStrim)

/-- What `json.loads` makes of the `cast send` stdout: unparsable JSON, a
non-dict value, or a dict with optional string-valued `status` and `gasUsed`
fields (the only fields `_cast_send` reads; Anvil's receipts carry them as
hex strings). -/
inductive JsonOut where
  | notJson
  | notDict
  | dict (status : Option String) (gasUsed : Option String)
deriving Repr, DecidableEq

/-- Outcome of the `cast send` subprocess: the step-level timeout fired, or
the process finished with an exit code, stdout (already JSON-classified) and
stderr. -/
inductive SendOutcome where
  | timeout
  | done (returncode : Int) (stdout : JsonOut) (stderr : String)
deriving Repr, DecidableEq

/-- `SimulationService._cast_send`, lines 530–570: the receipt it returns as
a function of the subprocess outcome.  A timeout is an immediate failure;
a non-zero exit is a failure with the extracted (or truncated) stderr
reason; with exit code zero, the JSON receipt is consulted — `status` is
read first, then `gasUsed` is converted with `int(_, 16)` (a conversion
error is swallowed by the same `except` as JSON errors, skipping the status
check), and only then a `status != "0x1"` receipt is reported failed. -/
def cast_send : SendOutcome → CastReceipt
  | .timeout => ⟨false, 0, some "cast send 超时"⟩
  | .done rc out stderr =>
    if rc ≠ 0 then
      ⟨false, 0, some ((extract_revert_reason stderr).getD (pyTake stderr 256))⟩
    else
      match out with
      | .notJson => ⟨true, 0, none⟩
      | .notDict => ⟨true, 0, none⟩
      | .dict status gasUsed =>
        match pyIntBase16 (gasUsed.getD "0x0") with
        | none => ⟨true, 0, none⟩
        | some gas_used =>
          if status.getD "0x0" ≠ "0x1" then
            ⟨false, gas_used, some "交易 Revert（status=0x0）"⟩
          else ⟨true, gas_used, none⟩

/-- Outcome of the `cast call` subprocess. -/
inductive CallOutcome where
  | timeout
  | done (returncode : Int) (stdout : String) (stderr : String)
deriving Repr, DecidableEq

/-- `SimulationService._cast_call_raw`, lines 597–615: a timeout or a
non-zero exit yields the empty string, otherwise the stripped stdout. -/
def cast_call_raw : CallOutcome → String
  | .timeout => ""
  | .done rc out _stderr => if rc ≠ 0 then "" else pyStrim out

/-- One `_cast_send` invocation against a trace of pending subprocess
outcomes: exactly one outcome is consumed per invocation (`none` when the
trace is empty). -/
def run_cast_send : List SendOutcome → Option (CastReceipt × List SendOutcome)
  | [] => none
  | o :: rest => some (cast_send o, rest)

/-- One `_cast_call_raw` invocation against a trace of pending subprocess
outcomes. -/
def run_cast_call : List CallOutcome → Option (String × List CallOutcome)
  | [] => none
  | o :: rest => some (cast_call_raw o, rest)

/-! ### ChainEventMonitor (`services/monitor.py`) -/

/-- The exception classes the monitor's control flow distinguishes:
`_process_log` catches exactly `IndexError` and `ValueError`; everything
else is `other` with its message. -/
inductive PyExc where
  | indexError
  | valueError
  | other (msg : String)
deriving Repr, DecidableEq

/-- A Python call that either returns or raises. -/
inductive PyResult (α : Type) where
  | ok (a : α)
  | raise (e : PyExc)
deriving Repr, DecidableEq

/-- `domain/models.py` `Token`, restricted to the fields the monitor sets;
pydantic's validator lowercases and strips non-empty addresses. -/
structure Token where
  address : String
  pair_address : String
deriving Repr, DecidableEq

/-- The `normalise_address` field validator of `Token`. -/
def normalise_address (v : String) : String :=
  if v ≠ "" then pyLower (pyStrim v) else v

/-- `Token(...)` construction as the monitor performs it. -/
def mkToken (address pair_address : String) : Token :=
  ⟨normalise_address address, normalise_address pair_address⟩

/-- One `eth_getLogs` entry as `_process_log` reads it: the list of topic
words and the data word(s), both as `.hex()` strings without `0x`. -/
structure LogEntry where
  topics : List String
  dataHex : String
deriving Repr, DecidableEq

/-- `MonitorService._process_log` (lines 128–165), with the awaited
handler's behaviour supplied as `handlerExc` (`none` = the handler returned,
or no handler is registered).  Decode failures raise `IndexError` /
`ValueError`, which the function's own `except` swallows; that `except`
equally swallows handler exceptions of those two classes, and only those. -/
def process_log (weth_address : String) (entry : LogEntry)
    (handlerExc : Option PyExc) : PyResult (Option Token) :=
  let body : PyResult (Option Token) :=
    match entry.topics.get? 1, entry.topics.get? 2 with
    | some t1, some t2 =>
      let token0 := "0x" ++ pyTakeRight t1 40
      let token1 := "0x" ++ pyTakeRight t2 40
      let pair_address := "0x" ++ pyTake (pyDrop entry.dataHex 24) 40
      let weth := pyLower weth_address
      let target? : Option String :=
        if pyLower token0 = weth then some token1
        else if pyLower token1 = weth then some token0
        else none
      match target? with
      | none => .ok none
      | some addr =>
        match handlerExc with
        | none => .ok (some (mkToken addr pair_address))
        | some e => .raise e
    | _, _ => .raise .indexError
  match body with
  | .raise .indexError => .ok none
  | .raise .valueError => .ok none
  | x => x

/-- The dispatch loop of `_poll_events` (lines 116–117): logs processed in
order, stopping at the first exception `_process_log` lets escape. -/
def dispatch_logs (weth_address : String) :
    List (LogEntry × Option PyExc) → PyResult Unit
  | [] => .ok ()
  | (entry, h) :: rest =>
    match process_log weth_address entry h with
    | .ok _ => dispatch_logs weth_address rest
    | .raise exc => .raise exc

/-- Whether `_process_log` reaches the `await self._on_new_pair(token)`
call for a given log: both indexed topics decode and one of the two decoded
token addresses is the wrapped-native asset. -/
def handlerReached (weth_address : String) (entry : LogEntry) : Bool :=
  match entry.topics.get? 1, entry.topics.get? 2 with
  | some t1, some t2 =>
    (pyLower ("0x" ++ pyTakeRight t1 40) = pyLower weth_address) ||
      (pyLower ("0x" ++ pyTakeRight t2 40) = pyLower weth_address)
  | _, _ => false

/-- The monitor's mutable state: `_last_block`, `_reconnect_attempts` and
the `_shutdown_event` flag. -/
structure MonitorState where
  last_block : Nat
  reconnect_attempts : Nat
  shutdown : Bool
deriving Repr, DecidableEq

/-- An `eth_getLogs` window as issued by `_poll_events`. -/
structure LogQuery where
  fromBlock : Nat
  toBlock : Nat
deriving Repr, DecidableEq

/-- `MAX_BLOCK_RANGE` of `_poll_events` (line 103). -/
def MAX_BLOCK_RANGE : Nat := 10

/-- One poll cycle's environment: the `eth.block_number` outcome and the
`eth.get_logs` outcome, the latter pairing each fetched log with its
handler's behaviour. -/
structure PollInput where
  head : PyResult Nat
  fetch : PyResult (List (LogEntry × Option PyExc))
deriving Repr, DecidableEq

/-- What one `_poll_events` call did: the state it left, the single log
query it issued (if any), and the exception it let escape (if any). -/
structure PollResult where
  state : MonitorState
  query : Option LogQuery
  raised : Option PyExc
deriving Repr, DecidableEq

/-- `MonitorService._poll_events` (lines 94–126): read the chain head; stop
when it does not exceed the cursor; otherwise query exactly the window
`[last_block+1, min(head, last_block+1+MAX_BLOCK_RANGE-1)]`, dispatch every
fetched log, and only then advance the cursor to the window's upper bound.
Any escaping exception leaves the state untouched. -/
def poll_events (weth_address : String) (st : MonitorState) (inp : PollInput) :
    PollResult :=
  match inp.head with
  | .raise e => ⟨st, none, some e⟩
  | .ok current_block =>
    if current_block ≤ st.last_block then ⟨st, none, none⟩
    else
      let from_block := st.last_block + 1
      let to_block := min current_block (from_block + MAX_BLOCK_RANGE - 1)
      let q : LogQuery := ⟨from_block, to_block⟩
      match inp.fetch with
      | .raise e => ⟨st, some q, some e⟩
      | .ok logs =>
        match dispatch_logs weth_address logs with
        | .raise e => ⟨st, some q, some e⟩
        | .ok () => ⟨{ st with last_block := to_block }, some q, none⟩

/-- The monitor's configuration knobs used by `_handle_error`. -/
structure MonitorSettings where
  max_reconnect_attempts : Nat
  reconnect_base_delay_secs : Rat
deriving Repr, DecidableEq

/-- `MonitorService._handle_error` (lines 167–189): bump the attempt
counter; beyond `max_reconnect_attempts` set shutdown (and sleep nothing),
otherwise sleep `min(base * 2^(attempts-1), 60)` seconds (returned here as
the second component). -/
def handle_error (s : MonitorSettings) (st : MonitorState) :
    MonitorState × Option Rat :=
  let attempts := st.reconnect_attempts + 1
  if s.max_reconnect_attempts < attempts then
    ({ st with reconnect_attempts := attempts, shutdown := true }, none)
  else
    ({ st with reconnect_attempts := attempts },
      some (min (s.reconnect_base_delay_secs * 2 ^ (attempts - 1)) 60))

/-- One iteration of the `while` loop in `start` (lines 69–74): a successful
`_poll_events` resets the attempt counter; an exception goes to
`_handle_error`.  Also returns the query issued and the backoff delay
slept, when any. -/
def loop_body (s : MonitorSettings) (weth_address : String) (st : MonitorState)
    (inp : PollInput) : MonitorState × Option LogQuery × Option Rat :=
  let pr := poll_events weth_address st inp
  match pr.raised with
  | none => ({ pr.state with reconnect_attempts := 0 }, pr.query, none)
  | some _ =>
    let st' := (handle_error s pr.state).1
    (st', pr.query, (handle_error s pr.state).2)

/-- The polling loop over a finite schedule of cycle environments; the
`while not self._shutdown_event.is_set()` guard is checked before each
cycle. -/
def run_loop (s : MonitorSettings) (weth_address : String)
    (st : MonitorState) : List PollInput → MonitorState
  | [] => st
  | inp :: rest =>
    if st.shutdown then st
    else run_loop s weth_address (loop_body s weth_address st inp).1 rest

/-- How many poll cycles `run_loop` actually executes on a schedule (cycles
after shutdown are never entered). -/
def polls_executed (s : MonitorSettings) (weth_address : String)
    (st : MonitorState) : List PollInput → Nat
  | [] => 0
  | inp :: rest =>
    if st.shutdown then 0
    else 1 + polls_executed s weth_address (loop_body s weth_address st inp).1 rest

/-! ### Concrete run environments used to instantiate the theorems -/

/-- A run whose buy transaction reverts. -/
def envBuyFail : SimEnv :=
  ⟨.ok "T", .ok 18, .ok (some 1000), .ok ⟨false, 0, some "execution reverted"⟩,
   .ok 0, .ok ⟨true, 0, none⟩, .ok (some 1), .ok 0, .ok ⟨true, 0, none⟩, .ok 0⟩

/-- A run whose approve transaction fails after a successful buy that
delivered 950 of 1000 quoted tokens; the approve receipt carries its own
extracted revert reason. -/
def envApproveFail : SimEnv :=
  ⟨.ok "T", .ok 18, .ok (some 1000), .ok ⟨true, 21000, none⟩, .ok 950,
   .ok ⟨false, 30000, some "execution reverted: approval blocked"⟩,
   .ok (some 1), .ok 0, .ok ⟨true, 0, none⟩, .ok 0⟩

/-- A run whose pre-buy router quote parses to `None`. -/
def envQuoteFail : SimEnv :=
  ⟨.ok "T", .ok 18, .ok none, .ok ⟨true, 21000, none⟩, .ok 950,
   .ok ⟨true, 30000, none⟩, .ok (some 1), .ok 0, .ok ⟨true, 0, none⟩, .ok 0⟩

/-! ### Invariants -/

/-- Invariant on `simulate_buy_sell`'s local variables: taxes stay inside
`[0, 100]`, and `can_sell` is only set after `can_buy`. -/
def VarsOK (v : SimVars) : Prop :=
  0 ≤ v.buy_tax_pct ∧ v.buy_tax_pct ≤ 100 ∧
  0 ≤ v.sell_tax_pct ∧ v.sell_tax_pct ≤ 100 ∧
  (v.can_buy = false → v.can_sell = false)

/-- Invariant on every `SimulationResult` the sandbox returns. -/
def ResultOK (r : SimulationResult) : Prop :=
  r.is_honeypot = (r.can_buy && !r.can_sell) ∧
  0 ≤ r.buy_tax_pct ∧ r.buy_tax_pct ≤ 100 ∧
  0 ≤ r.sell_tax_pct ∧ r.sell_tax_pct ≤ 100 ∧
  (r.can_buy = false → r.can_sell = false)

/-- `ResultOK` for an early return, `VarsOK` for a fall-through. -/
def OutcomeOK : BodyOutcome → Prop
  | .early r => ResultOK r
  | .fall v _ => VarsOK v

/-! ### Invariant proofs for the simulation sandbox -/

theorem raw_tax_le_100 {e a : Int} (he : 0 < e) (ha : 0 ≤ a) :
    ((e : Rat) - (a : Rat)) / (e : Rat) * 100 ≤ 100 := by
  have he' : (0 : Rat) < (e : Rat) := by exact_mod_cast he
  have ha' : (0 : Rat) ≤ (a : Rat) := by exact_mod_cast ha
  have h1 : ((e : Rat) - (a : Rat)) / (e : Rat) ≤ 1 := by
    rw [div_le_one he']
    linarith
  calc ((e : Rat) - (a : Rat)) / (e : Rat) * 100 ≤ 1 * 100 := by
        apply mul_le_mul_of_nonneg_right h1
        norm_num
    _ = 100 := by norm_num

theorem clamped_raw_mem {e a : Int} (he : 0 < e) (ha : 0 ≤ a) :
    0 ≤ max (0 : Rat) (((e : Rat) - (a : Rat)) / (e : Rat) * 100) ∧
      max (0 : Rat) (((e : Rat) - (a : Rat)) / (e : Rat) * 100) ≤ 100 :=
  ⟨le_max_left _ _, max_le (by norm_num) (raw_tax_le_100 he ha)⟩

theorem sellTaxStage_ok (v : SimVars) (expected_eth : Option Int)
    (eth_before : Int) (ea : Step Int)
    (hb1 : 0 ≤ v.buy_tax_pct) (hb2 : v.buy_tax_pct ≤ 100)
    (hs1 : 0 ≤ v.sell_tax_pct) (hs2 : v.sell_tax_pct ≤ 100)
    (hcb : v.can_buy = true) :
    OutcomeOK (sellTaxStage v expected_eth eth_before ea) := by
  have himp : v.can_buy = false → v.can_sell = false := by
    intro h; rw [hcb] at h; cases h
  cases ea with
  | exn m => exact ⟨hb1, hb2, hs1, hs2, himp⟩
  | ok eth_after =>
    cases expected_eth with
    | none => exact ⟨hb1, hb2, hs1, hs2, himp⟩
    | some e =>
      dsimp only [sellTaxStage]
      split_ifs with h
      · exact ⟨hb1, hb2, (clamped_raw_mem h.1 h.2).1, (clamped_raw_mem h.1 h.2).2,
          himp⟩
      · exact ⟨hb1, hb2, hs1, hs2, himp⟩

theorem sellStage_ok (addr : String) (v : SimVars) (expected_eth : Option Int)
    (eth_before : Int) (sr : Step CastReceipt) (ea : Step Int)
    (hb1 : 0 ≤ v.buy_tax_pct) (hb2 : v.buy_tax_pct ≤ 100)
    (hs1 : 0 ≤ v.sell_tax_pct) (hs2 : v.sell_tax_pct ≤ 100)
    (hcb : v.can_buy = true) :
    OutcomeOK (sellStage addr v expected_eth eth_before sr ea) := by
  have himp : v.can_buy = false → v.can_sell = false := by
    intro h; rw [hcb] at h; cases h
  cases sr with
  | exn m => exact ⟨hb1, hb2, hs1, hs2, himp⟩
  | ok sell_receipt =>
    dsimp only [sellStage]
    split_ifs with h
    · exact ⟨rfl, hb1, hb2, le_refl _, by norm_num, fun h => by cases h⟩
    · exact sellTaxStage_ok _ _ _ _ hb1 hb2 hs1 hs2 hcb

theorem postApproveStage_ok (addr : String) (v : SimVars)
    (aos : Step (Option Int)) (eb : Step Int) (sr : Step CastReceipt)
    (ea : Step Int)
    (hb1 : 0 ≤ v.buy_tax_pct) (hb2 : v.buy_tax_pct ≤ 100)
    (hs1 : 0 ≤ v.sell_tax_pct) (hs2 : v.sell_tax_pct ≤ 100)
    (hcb : v.can_buy = true) :
    OutcomeOK (postApproveStage addr v aos eb sr ea) := by
  have himp : v.can_buy = false → v.can_sell = false := by
    intro h; rw [hcb] at h; cases h
  cases aos with
  | exn m => exact ⟨hb1, hb2, hs1, hs2, himp⟩
  | ok expected_eth =>
    cases eb with
    | exn m => exact ⟨hb1, hb2, hs1, hs2, himp⟩
    | ok eth_before => exact sellStage_ok _ _ _ _ _ _ hb1 hb2 hs1 hs2 hcb

theorem approveStage_ok (addr : String) (v : SimVars) (ar : Step CastReceipt)
    (aos : Step (Option Int)) (eb : Step Int) (sr : Step CastReceipt)
    (ea : Step Int)
    (hb1 : 0 ≤ v.buy_tax_pct) (hb2 : v.buy_tax_pct ≤ 100)
    (hs1 : 0 ≤ v.sell_tax_pct) (hs2 : v.sell_tax_pct ≤ 100)
    (hcb : v.can_buy = true) :
    OutcomeOK (approveStage addr v ar aos eb sr ea) := by
  have himp : v.can_buy = false → v.can_sell = false := by
    intro h; rw [hcb] at h; cases h
  cases ar with
  | exn m => exact ⟨hb1, hb2, hs1, hs2, himp⟩
  | ok approve_receipt =>
    dsimp only [approveStage]
    split_ifs with h
    · exact ⟨rfl, hb1, hb2, le_refl _, by norm_num, fun h => by cases h⟩
    · exact postApproveStage_ok _ _ _ _ _ _ hb1 hb2 hs1 hs2 hcb

theorem balanceStage_ok (addr : String) (v : SimVars) (expected_tokens : Int)
    (tb : Step Int) (ar : Step CastReceipt) (aos : Step (Option Int))
    (eb : Step Int) (sr : Step CastReceipt) (ea : Step Int)
    (hb1 : 0 ≤ v.buy_tax_pct) (hb2 : v.buy_tax_pct ≤ 100)
    (hs1 : 0 ≤ v.sell_tax_pct) (hs2 : v.sell_tax_pct ≤ 100)
    (hcb : v.can_buy = true) :
    OutcomeOK (balanceStage addr v expected_tokens tb ar aos eb sr ea) := by
  have himp : v.can_buy = false → v.can_sell = false := by
    intro h; rw [hcb] at h; cases h
  cases tb with
  | exn m => exact ⟨hb1, hb2, hs1, hs2, himp⟩
  | ok actual_tokens =>
    dsimp only [balanceStage]
    by_cases hc : 0 < expected_tokens ∧ 0 ≤ actual_tokens
    · rw [if_pos hc]
      by_cases hz : actual_tokens = 0
      · rw [if_pos hz]
        exact ⟨rfl, by norm_num, by norm_num, le_refl _, by norm_num,
          fun h => by cases h⟩
      · rw [if_neg hz]
        exact approveStage_ok _ _ _ _ _ _ _ (clamped_raw_mem hc.1 hc.2).1
          (clamped_raw_mem hc.1 hc.2).2 hs1 hs2 hcb
    · rw [if_neg hc]
      by_cases hz : actual_tokens = 0
      · rw [if_pos hz]
        exact ⟨rfl, by norm_num, by norm_num, le_refl _, by norm_num,
          fun h => by cases h⟩
      · rw [if_neg hz]
        exact approveStage_ok _ _ _ _ _ _ _ hb1 hb2 hs1 hs2 hcb

theorem buyStage_ok (addr : String) (v : SimVars) (expected_tokens : Int)
    (br : Step CastReceipt) (tb : Step Int) (ar : Step CastReceipt)
    (aos : Step (Option Int)) (eb : Step Int) (sr : Step CastReceipt)
    (ea : Step Int) (hv : VarsOK v) :
    OutcomeOK (buyStage addr v expected_tokens br tb ar aos eb sr ea) := by
  obtain ⟨hb1, hb2, hs1, hs2, himp⟩ := hv
  cases br with
  | exn m => exact ⟨hb1, hb2, hs1, hs2, himp⟩
  | ok buy_receipt =>
    dsimp only [buyStage]
    split_ifs with h
    · exact ⟨rfl, le_refl _, by norm_num, le_refl _, by norm_num, fun _ => rfl⟩
    · exact balanceStage_ok _ _ _ _ _ _ _ _ _ hb1 hb2 hs1 hs2 rfl

theorem quoteStage_ok (addr : String) (v : SimVars) (aob : Step (Option Int))
    (br : Step CastReceipt) (tb : Step Int) (ar : Step CastReceipt)
    (aos : Step (Option Int)) (eb : Step Int) (sr : Step CastReceipt)
    (ea : Step Int) (hv : VarsOK v) :
    OutcomeOK (quoteStage addr v aob br tb ar aos eb sr ea) := by
  cases aob with
  | exn m => exact hv
  | ok expected? =>
    cases expected? with
    | none =>
      exact ⟨rfl, le_refl _, by norm_num, le_refl _, by norm_num, fun _ => rfl⟩
    | some expected_tokens =>
      dsimp only [quoteStage]
      split_ifs with h
      · exact ⟨rfl, le_refl _, by norm_num, le_refl _, by norm_num, fun _ => rfl⟩
      · exact buyStage_ok _ _ _ _ _ _ _ _ _ _ hv

theorem varsOK_default : VarsOK {} :=
  ⟨le_refl _, by norm_num, le_refl _, by norm_num, fun _ => rfl⟩

theorem simBody_ok (addr : String) (env : SimEnv) :
    OutcomeOK (simBody addr env) := by
  dsimp only [simBody]
  cases env.symbol with
  | exn m => exact varsOK_default
  | ok s =>
    cases env.decimals with
    | exn m => exact varsOK_default
    | ok d => exact quoteStage_ok _ _ _ _ _ _ _ _ _ _ varsOK_default

theorem finalReturn_ok (addr : String) (v : SimVars) (em : Option String)
    (hv : VarsOK v) : ResultOK (finalReturn addr v em) := by
  obtain ⟨hb1, hb2, hs1, hs2, himp⟩ := hv
  exact ⟨rfl, le_min hb1 (by norm_num), min_le_right _ _,
    le_min hs1 (by norm_num), min_le_right _ _, himp⟩

/-- Every result `simulate_buy_sell` can return satisfies the honeypot
equation and the tax bounds. -/
theorem simulate_buy_sell_ok (addr : String) (env : SimEnv) :
    ResultOK (simulate_buy_sell addr env) := by
  have h := simBody_ok addr env
  unfold simulate_buy_sell
  cases hbody : simBody addr env with
  | early r => rw [hbody] at h; exact h
  | fall v em => rw [hbody] at h; exact finalReturn_ok addr v em h

/-- C1: for every `SimulationResult` returned by `simulate_buy_sell`, on
every return path (buy failure, zero post-buy balance, approve failure, sell
failure, full success, and the internal-exception path), `is_honeypot`
equals `can_buy AND NOT can_sell`; in particular every result with
`can_buy = false` has `can_sell = false` (so in particular a buy-failure
result) and `is_honeypot = false`. -/
theorem simulate_honeypot_equation (addr : String) (env : SimEnv) :
    (simulate_buy_sell addr env).is_honeypot =
      ((simulate_buy_sell addr env).can_buy &&
        !(simulate_buy_sell addr env).can_sell) ∧
    ((simulate_buy_sell addr env).can_buy = false →
      (simulate_buy_sell addr env).can_sell = false ∧
        (simulate_buy_sell addr env).is_honeypot = false) := by
  obtain ⟨h1, _, _, _, _, h6⟩ := simulate_buy_sell_ok addr env
  refine ⟨h1, fun hb => ⟨h6 hb, ?_⟩⟩
  rw [h1, hb, Bool.false_and]

theorem simulate_honeypot_equation_witness :
    (simulate_buy_sell "0xtoken" envBuyFail).can_sell = false ∧
    (simulate_buy_sell "0xtoken" envBuyFail).is_honeypot = false :=
  (simulate_honeypot_equation "0xtoken" envBuyFail).2 (by decide)

/-- C2: for every `SimulationResult` returned by `simulate_buy_sell`,
`buy_tax_pct` and `sell_tax_pct` lie in `[0, 100]`, whatever the raw value
`(expected - actual) / expected * 100` was, on the early-return paths as
well as on the final return. -/
theorem simulate_tax_in_range (addr : String) (env : SimEnv) :
    0 ≤ (simulate_buy_sell addr env).buy_tax_pct ∧
    (simulate_buy_sell addr env).buy_tax_pct ≤ 100 ∧
    0 ≤ (simulate_buy_sell addr env).sell_tax_pct ∧
    (simulate_buy_sell addr env).sell_tax_pct ≤ 100 := by
  obtain ⟨_, h2, h3, h4, h5, _⟩ := simulate_buy_sell_ok addr env
  exact ⟨h2, h3, h4, h5⟩

/-- C9, counterexample to the claim as stated: on a concrete run whose
approve transaction fails after a successful buy, the result's
`revert_reason` is the fixed message of `simulator.py` line 310 and not the
approve failure's extracted reason carried by the receipt. -/
theorem approve_reason_not_extracted_cex :
    (simulate_buy_sell "0xtoken" envApproveFail).can_buy = true ∧
    (simulate_buy_sell "0xtoken" envApproveFail).can_sell = false ∧
    (simulate_buy_sell "0xtoken" envApproveFail).is_honeypot = true ∧
    (simulate_buy_sell "0xtoken" envApproveFail).revert_reason =
      some "Approve 被拒绝 — 可能是蜜罐" ∧
    (simulate_buy_sell "0xtoken" envApproveFail).revert_reason ≠
      some "execution reverted: approval blocked" := by
  decide

/-- C9 (amended): whenever the approve transaction fails after a successful
buy, `simulate_buy_sell` returns `can_buy = true`, `can_sell = false`,
`is_honeypot = true`, and `revert_reason` set to the fixed message
`"Approve 被拒绝 — 可能是蜜罐"` (the approve failure's own extracted reason
is only logged, not returned). -/
theorem approve_failure_result (addr sym : String) (d e a : Int)
    (br ar : CastReceipt) (aos : Step (Option Int)) (eb : Step Int)
    (sr : Step CastReceipt) (ea : Step Int)
    (he : e ≠ 0) (hbr : br.success = true) (ha : a ≠ 0)
    (har : ar.success = false) :
    (simulate_buy_sell addr
        ⟨.ok sym, .ok d, .ok (some e), .ok br, .ok a, .ok ar, aos, eb, sr, ea⟩) =
      { token_address := addr, can_buy := true, can_sell := false,
        is_honeypot := true, buy_gas := br.gas_used,
        buy_tax_pct := if 0 < e ∧ 0 ≤ a then
            max 0 (((e : Rat) - (a : Rat)) / (e : Rat) * 100) else 0,
        revert_reason := some "Approve 被拒绝 — 可能是蜜罐" } := by
  unfold simulate_buy_sell simBody quoteStage buyStage balanceStage approveStage
  dsimp only
  rw [if_neg he, hbr]
  rw [if_neg (fun h => Bool.noConfusion h)]
  by_cases hc : 0 < e ∧ 0 ≤ a
  · rw [if_pos hc, if_neg ha, if_pos har, if_pos hc]
  · rw [if_neg hc, if_neg ha, if_pos har, if_neg hc]

theorem approve_failure_result_witness :
    (simulate_buy_sell "0xtoken" envApproveFail) =
      { token_address := "0xtoken", can_buy := true, can_sell := false,
        is_honeypot := true, buy_gas := 21000,
        buy_tax_pct := if (0 : Int) < 1000 ∧ (0 : Int) ≤ 950 then
            max 0 ((((1000 : Int) : Rat) - ((950 : Int) : Rat)) /
              ((1000 : Int) : Rat) * 100) else 0,
        revert_reason := some "Approve 被拒绝 — 可能是蜜罐" } := by
  have h := approve_failure_result "0xtoken" "T" 18 1000 950
    ⟨true, 21000, none⟩ ⟨false, 30000, some "execution reverted: approval blocked"⟩
    (.ok (some 1)) (.ok 0) (.ok ⟨true, 0, none⟩) (.ok 0)
    (by decide) rfl (by decide) rfl
  exact h

/-- C10: when the pre-buy router quote returns `None` or zero,
`simulate_buy_sell` returns the defaulted result whose only set field is
`error_message`, and submits no buy, approve or sell transaction. -/
theorem quote_failure_result (addr sym : String) (d : Int) (v : Option Int)
    (br : Step CastReceipt) (tb : Step Int) (ar : Step CastReceipt)
    (aos : Step (Option Int)) (eb : Step Int) (sr : Step CastReceipt)
    (ea : Step Int) (hv : v = none ∨ v = some 0) :
    simulate_buy_sell addr ⟨.ok sym, .ok d, .ok v, br, tb, ar, aos, eb, sr, ea⟩ =
      { token_address := addr,
        error_message := some "getAmountsOut 失败 — 可能没有流动性" } ∧
    sim_sends ⟨.ok sym, .ok d, .ok v, br, tb, ar, aos, eb, sr, ea⟩ = [] := by
  rcases hv with h | h <;> subst h <;>
    simp [simulate_buy_sell, simBody, quoteStage, sim_sends]

theorem quote_failure_result_witness :
    simulate_buy_sell "0xtoken" envQuoteFail =
      { token_address := "0xtoken",
        error_message := some "getAmountsOut 失败 — 可能没有流动性" } ∧
    sim_sends envQuoteFail = [] := by
  have h := quote_failure_result "0xtoken" "T" 18 none
    (.ok ⟨true, 21000, none⟩) (.ok 950) (.ok ⟨true, 30000, none⟩)
    (.ok (some 1)) (.ok 0) (.ok ⟨true, 0, none⟩) (.ok 0) (Or.inl rfl)
  exact h

/-! ### `_cast_send` / `_cast_call_raw` behaviour -/

/-- C7, counterexample to the claim as stated: with exit code zero and a
receipt whose `status` is `"0x0"` (≠ `"0x1"`) but whose `gasUsed` does not
convert under `int(_, 16)`, the `ValueError` lands in the same `except` as
JSON errors, the status check is skipped, and the step is reported as a
success — not the failure the claim requires. -/
theorem cast_send_status_not_failed_cex :
    (some "0x0" ≠ some "0x1") ∧
    cast_send (.done 0 (.dict (some "0x0") (some "oops")) "") =
      ⟨true, 0, none⟩ := by
  decide

/-- C7 (amended): a non-zero CLI exit is reported as a step failure whose
reason is the first stderr line with a revert/error marker, else the raw
stderr truncated to 256 characters; and when the receipt's `gasUsed` field
converts under `int(_, 16)`, a `status` other than `"0x1"` is reported as a
step failure even with exit code zero (when `gasUsed` does not convert, the
receipt-parsing error is swallowed and the step is reported successful). -/
theorem cast_send_failure_surfacing (rc : Int) (out : JsonOut)
    (stderr : String) (status gasUsed : Option String) (g : Nat) :
    (rc ≠ 0 → cast_send (.done rc out stderr) =
      ⟨false, 0, some ((extract_revert_reason stderr).getD (pyTake stderr 256))⟩) ∧
    (pyIntBase16 (gasUsed.getD "0x0") = some g →
      status.getD "0x0" ≠ "0x1" →
      cast_send (.done 0 (.dict status gasUsed) stderr) =
        ⟨false, g, some "交易 Revert（status=0x0）"⟩) := by
  constructor
  · intro h
    simp only [cast_send]
    rw [if_pos h]
  · intro hg hs
    simp only [cast_send]
    rw [if_neg (by simp : ¬((0 : Int) ≠ 0)), hg]
    dsimp only
    rw [if_pos hs]

theorem cast_send_failure_surfacing_witness :
    cast_send (.done 1 .notJson "Error: execution reverted") =
      ⟨false, 0, some "Error: execution reverted"⟩ ∧
    cast_send (.done 0 (.dict (some "0x0") (some "0x5208")) "") =
      ⟨false, 21000, some "交易 Revert（status=0x0）"⟩ := by
  constructor
  · have h := (cast_send_failure_surfacing 1 .notJson
      "Error: execution reverted" none none 0).1 (by decide)
    rw [h]
    decide
  · exact (cast_send_failure_surfacing 0 (.dict (some "0x0") (some "0x5208"))
      "" (some "0x0") (some "0x5208") 21000).2 (by decide) (by decide)

/-- C8: a timeout on a single CLI invocation is a hard failure of that
step and is not retried: the `cast send` wrapper consumes exactly one
subprocess outcome and returns the failed timeout receipt, and the
`cast call` wrapper consumes exactly one subprocess outcome and returns the
empty output, which `_parse_cast_uint` then reads as 0. -/
theorem cast_timeout_hard_failure (restS : List SendOutcome)
    (restC : List CallOutcome) :
    run_cast_send (.timeout :: restS) =
      some (⟨false, 0, some "cast send 超时"⟩, restS) ∧
    (cast_send .timeout).success = false ∧
    run_cast_call (.timeout :: restC) = some ("", restC) ∧
    parse_cast_uint "" = 0 := by
  refine ⟨rfl, rfl, rfl, by decide⟩

/-! ### Monitor lemmas -/

theorem handle_error_fst (s : MonitorSettings) (st : MonitorState) :
    ((handle_error s st).1).last_block = st.last_block ∧
    ((handle_error s st).1).reconnect_attempts = st.reconnect_attempts + 1 := by
  unfold handle_error
  dsimp only
  split_ifs <;> exact ⟨rfl, rfl⟩

theorem handle_error_within (s : MonitorSettings) (st : MonitorState)
    (h : st.reconnect_attempts + 1 ≤ s.max_reconnect_attempts) :
    (handle_error s st).1 =
      { st with reconnect_attempts := st.reconnect_attempts + 1 } ∧
    (handle_error s st).2 =
      some (min (s.reconnect_base_delay_secs * 2 ^ st.reconnect_attempts) 60) := by
  unfold handle_error
  rw [if_neg (by omega)]
  refine ⟨rfl, ?_⟩
  rw [Nat.add_sub_cancel]

theorem handle_error_exceeded (s : MonitorSettings) (st : MonitorState)
    (h : s.max_reconnect_attempts < st.reconnect_attempts + 1) :
    (handle_error s st).1 =
      { st with reconnect_attempts := st.reconnect_attempts + 1,
                shutdown := true } ∧
    (handle_error s st).2 = none := by
  unfold handle_error
  rw [if_pos h]
  exact ⟨rfl, rfl⟩

theorem poll_events_query_spec (weth : String) (st : MonitorState)
    (inp : PollInput) :
    (poll_events weth st inp).query =
      (match inp.head with
      | .raise _ => none
      | .ok cur =>
        if cur ≤ st.last_block then none
        else some ⟨st.last_block + 1,
          min cur (st.last_block + 1 + MAX_BLOCK_RANGE - 1)⟩) := by
  rcases inp with ⟨hd, ft⟩
  cases hd with
  | raise e => rfl
  | ok cur =>
    dsimp only [poll_events]
    by_cases hc : cur ≤ st.last_block
    · rw [if_pos hc, if_pos hc]
    · rw [if_neg hc, if_neg hc]
      cases ft with
      | raise e => rfl
      | ok logs =>
        dsimp only
        cases hd2 : dispatch_logs weth logs with
        | raise e => rfl
        | ok u => cases u; rfl

theorem poll_events_state_spec (weth : String) (st : MonitorState)
    (inp : PollInput) :
    st.last_block ≤ ((poll_events weth st inp).state).last_block ∧
    ((poll_events weth st inp).raised.isSome = true →
      (poll_events weth st inp).state = st) ∧
    ((poll_events weth st inp).raised = none →
      ∀ q, (poll_events weth st inp).query = some q →
        ((poll_events weth st inp).state).last_block = q.toBlock) := by
  rcases inp with ⟨hd, ft⟩
  cases hd with
  | raise e => exact ⟨le_refl _, fun _ => rfl, fun h => by cases h⟩
  | ok cur =>
    dsimp only [poll_events]
    by_cases hc : cur ≤ st.last_block
    · rw [if_pos hc]
      exact ⟨le_refl _, fun _ => rfl, fun _ q hq => by cases hq⟩
    · rw [if_neg hc]
      cases ft with
      | raise e => exact ⟨le_refl _, fun _ => rfl, fun h => by cases h⟩
      | ok logs =>
        dsimp only
        cases hd2 : dispatch_logs weth logs with
        | raise e => exact ⟨le_refl _, fun _ => rfl, fun h => by cases h⟩
        | ok u =>
          cases u
          refine ⟨le_min (by omega) (by omega), fun h => by simp at h,
            fun _ q hq => ?_⟩
          injection hq with hq'
          rw [← hq']

theorem loop_body_state_last_block (s : MonitorSettings) (weth : String)
    (st : MonitorState) (inp : PollInput) :
    ((loop_body s weth st inp).1).last_block =
      ((poll_events weth st inp).state).last_block := by
  dsimp only [loop_body]
  cases hr : (poll_events weth st inp).raised with
  | none => rfl
  | some e => exact (handle_error_fst s (poll_events weth st inp).state).1

theorem loop_body_last_block_ge (s : MonitorSettings) (weth : String)
    (st : MonitorState) (inp : PollInput) :
    st.last_block ≤ ((loop_body s weth st inp).1).last_block := by
  rw [loop_body_state_last_block]
  exact (poll_events_state_spec weth st inp).1

theorem run_loop_last_block_mono (s : MonitorSettings) (weth : String) :
    ∀ (schedule : List PollInput) (st : MonitorState),
      st.last_block ≤ (run_loop s weth st schedule).last_block := by
  intro schedule
  induction schedule with
  | nil => intro st; exact le_refl _
  | cons inp rest ih =>
    intro st
    dsimp only [run_loop]
    by_cases hsd : st.shutdown = true
    · rw [if_pos hsd]
    · rw [if_neg hsd]
      exact le_trans (loop_body_last_block_ge s weth st inp) (ih _)

theorem loop_body_head_raise (s : MonitorSettings) (weth : String)
    (st : MonitorState) (inp : PollInput) (e : PyExc)
    (h : inp.head = .raise e) :
    (loop_body s weth st inp).1 = (handle_error s st).1 ∧
    (loop_body s weth st inp).2.2 = (handle_error s st).2 := by
  rcases inp with ⟨hd, ft⟩
  dsimp only at h
  subst h
  exact ⟨rfl, rfl⟩

theorem run_loop_shutdown (s : MonitorSettings) (weth : String)
    (st : MonitorState) (l : List PollInput) (h : st.shutdown = true) :
    run_loop s weth st l = st := by
  cases l with
  | nil => rfl
  | cons a rest =>
    dsimp only [run_loop]
    rw [if_pos h]

theorem polls_executed_shutdown (s : MonitorSettings) (weth : String)
    (st : MonitorState) (l : List PollInput) (h : st.shutdown = true) :
    polls_executed s weth st l = 0 := by
  cases l with
  | nil => rfl
  | cons a rest =>
    dsimp only [polls_executed]
    rw [if_pos h]

theorem run_loop_append (s : MonitorSettings) (weth : String) :
    ∀ (l1 l2 : List PollInput) (st : MonitorState),
      run_loop s weth st (l1 ++ l2) =
        run_loop s weth (run_loop s weth st l1) l2 := by
  intro l1
  induction l1 with
  | nil => intro l2 st; rfl
  | cons a rest ih =>
    intro l2 st
    rw [List.cons_append]
    dsimp only [run_loop]
    by_cases h : st.shutdown = true
    · rw [if_pos h, if_pos h, run_loop_shutdown s weth st l2 h]
    · rw [if_neg h, if_neg h, ih]

theorem run_loop_fail_within (s : MonitorSettings) (weth : String)
    (inp : PollInput) (e : PyExc) (h : inp.head = .raise e) :
    ∀ (k : Nat) (st : MonitorState), st.shutdown = false →
      st.reconnect_attempts + k ≤ s.max_reconnect_attempts →
      run_loop s weth st (List.replicate k inp) =
        { st with reconnect_attempts := st.reconnect_attempts + k } := by
  intro k
  induction k with
  | zero =>
    intro st hs hk
    show st = _
    cases st
    rfl
  | succ k ih =>
    intro st hs hk
    rw [List.replicate_succ]
    dsimp only [run_loop]
    rw [if_neg (by rw [hs]; exact Bool.false_ne_true)]
    rw [(loop_body_head_raise s weth st inp e h).1]
    rw [(handle_error_within s st (by omega)).1]
    rw [ih { st with reconnect_attempts := st.reconnect_attempts + 1 }
      hs (by dsimp only; omega)]
    have harith : st.reconnect_attempts + 1 + k =
        st.reconnect_attempts + (k + 1) := by omega
    dsimp only
    rw [harith]

theorem run_loop_fail_ceiling (s : MonitorSettings) (weth : String)
    (inp : PollInput) (e : PyExc) (h : inp.head = .raise e) (B : Nat) :
    run_loop s weth ⟨B, 0, false⟩
        (List.replicate (s.max_reconnect_attempts + 1) inp) =
      ⟨B, s.max_reconnect_attempts + 1, true⟩ := by
  have h1 := run_loop_fail_within s weth inp e h s.max_reconnect_attempts
    ⟨B, 0, false⟩ rfl
    (by show (0 : Nat) + s.max_reconnect_attempts ≤ s.max_reconnect_attempts
        omega)
  have hst : ({ (⟨B, 0, false⟩ : MonitorState) with
      reconnect_attempts := (0 : Nat) + s.max_reconnect_attempts } :
        MonitorState) = ⟨B, s.max_reconnect_attempts, false⟩ := by
    rw [Nat.zero_add]
  rw [List.replicate_succ', run_loop_append, h1, hst]
  dsimp only [run_loop]
  rw [if_neg (by exact Bool.false_ne_true)]
  rw [(loop_body_head_raise s weth ⟨B, s.max_reconnect_attempts, false⟩
    inp e h).1]
  rw [(handle_error_exceeded s ⟨B, s.max_reconnect_attempts, false⟩
    (by show s.max_reconnect_attempts < s.max_reconnect_attempts + 1
        omega)).1]

/-! ### Claim theorems for the monitor -/

/-- C3, counterexample to the claim as stated: a handler exception that is
neither `IndexError` nor `ValueError` escapes `_process_log`, aborts the
dispatch of the remaining logs in the window, is counted by `_handle_error`
as a transport failure (the attempt counter becomes 1), and prevents the
cursor from advancing past the window (it stays at 100). -/
theorem handler_exception_propagates_cex :
    process_log "0x00aa" ⟨["ff", "00aa", "00bb"], "00"⟩ (some (.other "boom")) =
      .raise (.other "boom") ∧
    dispatch_logs "0x00aa"
      [(⟨["ff", "00aa", "00bb"], "00"⟩, some (.other "boom")),
       (⟨["ff", "00aa", "00cc"], "00"⟩, none)] = .raise (.other "boom") ∧
    (loop_body ⟨10, 1⟩ "0x00aa" ⟨100, 0, false⟩
        ⟨.ok 101, .ok [(⟨["ff", "00aa", "00bb"], "00"⟩, some (.other "boom"))]⟩).1 =
      ⟨100, 1, false⟩ := by
  decide

/-- What `_process_log` does with a raising handler, as a function of
whether the handler is reached: `IndexError` and `ValueError` are swallowed
by the decode-error `except`, everything else escapes. -/
theorem process_log_raise_eq (weth : String) (entry : LogEntry) (exc : PyExc) :
    process_log weth entry (some exc) =
      (if handlerReached weth entry = true then
        (match exc with
         | .indexError => .ok none
         | .valueError => .ok none
         | .other m => .raise (.other m))
       else .ok none) := by
  rcases entry with ⟨topics, dataHex⟩
  unfold process_log handlerReached
  rcases hg1 : topics.get? 1 with _ | t1 <;>
    rcases hg2 : topics.get? 2 with _ | t2 <;>
      simp only [hg1, hg2] <;> try dsimp only
  all_goals try rfl
  all_goals
    by_cases hA : pyLower ("0x" ++ pyTakeRight t1 40) = pyLower weth
    · rw [if_pos hA, if_pos (by rw [hA]; simp)]
      try (cases exc <;> rfl)
    · rw [if_neg hA]
      by_cases hB : pyLower ("0x" ++ pyTakeRight t2 40) = pyLower weth
      · rw [if_pos hB, if_pos (by rw [hB]; simp)]
        try (cases exc <;> rfl)
      · rw [if_neg hB, if_neg (by simp [hA, hB])]

/-- C3 (amended): a handler exception of class `IndexError` or `ValueError`
is swallowed by `_process_log`'s decode-error handler and never propagates;
a handler exception of any other class propagates out of `_process_log`
into the polling loop whenever the handler is reached. -/
theorem process_log_handler_isolation (weth : String) (entry : LogEntry)
    (m : String) :
    process_log weth entry (some .indexError) = .ok none ∧
    process_log weth entry (some .valueError) = .ok none ∧
    (handlerReached weth entry = true →
      process_log weth entry (some (.other m)) = .raise (.other m)) := by
  refine ⟨?_, ?_, fun hreach => ?_⟩ <;>
    rw [process_log_raise_eq]
  · split_ifs <;> rfl
  · split_ifs <;> rfl
  · rw [if_pos hreach]

theorem process_log_handler_isolation_witness :
    process_log "0x00aa" ⟨["ff", "00aa", "00bb"], "00"⟩ (some .indexError) =
      .ok none ∧
    process_log "0x00aa" ⟨["ff", "00aa", "00bb"], "00"⟩
      (some (.other "boom")) = .raise (.other "boom") := by
  have h := process_log_handler_isolation "0x00aa"
    ⟨["ff", "00aa", "00bb"], "00"⟩ "boom"
  exact ⟨h.1, h.2.2 (by decide)⟩

/-- C4: across every schedule of poll cycles the cursor is non-decreasing;
when a cycle completes without an escaping exception and issued a query,
the cursor lands exactly on that window's upper bound (all fetched logs
having been dispatched first); when a cycle raises, the whole monitor state
is unchanged; and the retried cycle, against the same environment, issues
the same window query. -/
theorem cursor_monotone_and_retry (s : MonitorSettings) (weth : String) :
    (∀ (st : MonitorState) (schedule : List PollInput),
      st.last_block ≤ (run_loop s weth st schedule).last_block) ∧
    (∀ st inp, (poll_events weth st inp).raised = none →
      ∀ q, (poll_events weth st inp).query = some q →
        ((poll_events weth st inp).state).last_block = q.toBlock) ∧
    (∀ st inp, (poll_events weth st inp).raised.isSome = true →
      (poll_events weth st inp).state = st) ∧
    (∀ st inp, (poll_events weth st inp).raised.isSome = true →
      (poll_events weth ((loop_body s weth st inp).1) inp).query =
        (poll_events weth st inp).query) := by
  refine ⟨fun st schedule => run_loop_last_block_mono s weth schedule st,
    fun st inp => (poll_events_state_spec weth st inp).2.2,
    fun st inp => (poll_events_state_spec weth st inp).2.1,
    fun st inp h => ?_⟩
  have hlb : ((loop_body s weth st inp).1).last_block = st.last_block := by
    rw [loop_body_state_last_block,
      (poll_events_state_spec weth st inp).2.1 h]
  rw [poll_events_query_spec, poll_events_query_spec, hlb]

theorem cursor_monotone_and_retry_witness :
    (⟨100, 0, false⟩ : MonitorState).last_block ≤
      (run_loop ⟨10, 1⟩ "0x00aa" ⟨100, 0, false⟩
        [⟨.raise (.other "rpc"), .ok []⟩, ⟨.ok 105, .ok []⟩]).last_block ∧
    ((poll_events "0x00aa" ⟨100, 0, false⟩ ⟨.ok 105, .ok []⟩).state).last_block =
      (105 : Nat) ∧
    (poll_events "0x00aa" ⟨100, 0, false⟩ ⟨.raise (.other "rpc"), .ok []⟩).state =
      ⟨100, 0, false⟩ ∧
    (poll_events "0x00aa"
        ((loop_body ⟨10, 1⟩ "0x00aa" ⟨100, 0, false⟩
          ⟨.raise (.other "rpc"), .ok []⟩).1)
        ⟨.raise (.other "rpc"), .ok []⟩).query =
      (poll_events "0x00aa" ⟨100, 0, false⟩
        ⟨.raise (.other "rpc"), .ok []⟩).query := by
  have h := cursor_monotone_and_retry ⟨10, 1⟩ "0x00aa"
  refine ⟨h.1 ⟨100, 0, false⟩ _, ?_, h.2.2.1 ⟨100, 0, false⟩ _ (by decide),
    h.2.2.2 ⟨100, 0, false⟩ _ (by decide)⟩
  have h2 := h.2.1 ⟨100, 0, false⟩ ⟨.ok 105, .ok []⟩ (by decide) ⟨101, 105⟩
    (by decide)
  exact h2

/-- C5: with every poll cycle failing, the monitor keeps retrying while the
attempt count is within `max_reconnect_attempts` (attempt counter equal to
the number of failures, shutdown unset), sets shutdown after exactly
`max_reconnect_attempts + 1` consecutive failures, and from then on executes
no further poll cycle; a successful poll cycle resets the attempt counter to
zero; and the backoff delay before retry `n` (while `n ≤ max`) is
`base_delay * 2^(n-1)` capped at 60 seconds. -/
theorem reconnect_ceiling (s : MonitorSettings) (weth : String) (B : Nat)
    (e : PyExc) (inp : PollInput) (h : inp.head = .raise e) :
    (∀ k, k ≤ s.max_reconnect_attempts →
      (run_loop s weth ⟨B, 0, false⟩ (List.replicate k inp)).shutdown = false ∧
      (run_loop s weth ⟨B, 0, false⟩
        (List.replicate k inp)).reconnect_attempts = k) ∧
    run_loop s weth ⟨B, 0, false⟩
        (List.replicate (s.max_reconnect_attempts + 1) inp) =
      ⟨B, s.max_reconnect_attempts + 1, true⟩ ∧
    (∀ rest, polls_executed s weth
      (run_loop s weth ⟨B, 0, false⟩
        (List.replicate (s.max_reconnect_attempts + 1) inp)) rest = 0) ∧
    (∀ st inp', (poll_events weth st inp').raised = none →
      ((loop_body s weth st inp').1).reconnect_attempts = 0) ∧
    (∀ st : MonitorState, st.reconnect_attempts + 1 ≤ s.max_reconnect_attempts →
      (loop_body s weth st inp).2.2 =
        some (min (s.reconnect_base_delay_secs * 2 ^ st.reconnect_attempts)
          60)) := by
  refine ⟨fun k hk => ?_, run_loop_fail_ceiling s weth inp e h B,
    fun rest => ?_, fun st inp' hok => ?_, fun st hst => ?_⟩
  · rw [run_loop_fail_within s weth inp e h k ⟨B, 0, false⟩ rfl
      (by show (0 : Nat) + k ≤ s.max_reconnect_attempts
          omega)]
    exact ⟨rfl, Nat.zero_add k⟩
  · rw [run_loop_fail_ceiling s weth inp e h B]
    exact polls_executed_shutdown s weth _ rest rfl
  · dsimp only [loop_body]
    rw [hok]
  · rw [(loop_body_head_raise s weth st inp e h).2,
      (handle_error_within s st hst).2]

theorem reconnect_ceiling_witness :
    (run_loop ⟨2, 1⟩ "w" ⟨5, 0, false⟩
      (List.replicate 2 ⟨.raise (.other "x"), .ok []⟩)).shutdown = false ∧
    (run_loop ⟨2, 1⟩ "w" ⟨5, 0, false⟩
      (List.replicate 2 ⟨.raise (.other "x"), .ok []⟩)).reconnect_attempts = 2 ∧
    run_loop ⟨2, 1⟩ "w" ⟨5, 0, false⟩
      (List.replicate 3 ⟨.raise (.other "x"), .ok []⟩) = ⟨5, 3, true⟩ ∧
    (loop_body ⟨2, 1⟩ "w" ⟨5, 1, false⟩ ⟨.raise (.other "x"), .ok []⟩).2.2 =
      some (min ((1 : Rat) * 2 ^ (1 : Nat)) 60) := by
  have h := reconnect_ceiling ⟨2, 1⟩ "w" 5 (.other "x")
    ⟨.raise (.other "x"), .ok []⟩ rfl
  exact ⟨(h.1 2 (by decide)).1, (h.1 2 (by decide)).2, h.2.1,
    h.2.2.2.2 ⟨5, 1, false⟩ (by decide)⟩

/-- C6: on a poll cycle whose chain head `cur` does not exceed the cursor,
no log query is issued; otherwise the (single) query is exactly
`[cursor+1, min cur (cursor+1+10-1)]`; and every issued query spans at most
10 blocks. -/
theorem poll_window_bound (weth : String) (st : MonitorState)
    (inp : PollInput) (cur : Nat) (h : inp.head = .ok cur) :
    (cur ≤ st.last_block → (poll_events weth st inp).query = none) ∧
    (st.last_block < cur →
      (poll_events weth st inp).query =
        some ⟨st.last_block + 1, min cur (st.last_block + 1 + 10 - 1)⟩) ∧
    (∀ q, (poll_events weth st inp).query = some q →
      q.toBlock + 1 - q.fromBlock ≤ 10) := by
  have hq := poll_events_query_spec weth st inp
  rw [h] at hq
  dsimp only at hq
  refine ⟨fun hc => ?_, fun hc => ?_, fun q hsome => ?_⟩
  · rw [hq]
    exact if_pos hc
  · rw [hq, if_neg (Nat.not_le.mpr hc)]
    rfl
  · rw [hq] at hsome
    by_cases hc : cur ≤ st.last_block
    · rw [if_pos hc] at hsome
      cases hsome
    · rw [if_neg hc] at hsome
      injection hsome with h'
      rw [← h']
      dsimp only [MAX_BLOCK_RANGE]
      have hm := Nat.min_le_right cur (st.last_block + 1 + 10 - 1)
      omega

theorem poll_window_bound_witness :
    (poll_events "0x00aa" ⟨100, 0, false⟩ ⟨.ok 150, .ok []⟩).query =
      some ⟨101, 110⟩ ∧
    (110 : Nat) + 1 - 101 ≤ 10 := by
  have h := poll_window_bound "0x00aa" ⟨100, 0, false⟩ ⟨.ok 150, .ok []⟩ 150 rfl
  have hq := h.2.1 (by decide)
  refine ⟨?_, ?_⟩
  · rw [hq]
    decide
  · exact h.2.2 ⟨101, 110⟩ (by rw [hq]; decide)

end Memescan
